import Mathlib

/-!
Shallow embedding of `src/pyutools/io/lock.py`: a directory-scoped,
sqlite-backed mutual-exclusion lock (class `Lock`), its staleness/timeout
logic, its id allocator (`Lock._init_db`), its directory creation
(`Lock._create_directory`) and its release/shutdown paths.

Wall-clock instants, timeouts and intervals (Python floats) are embedded as
rationals `ℚ`; all arithmetic the code performs on them (subtraction,
negation, comparison, division by 2) is exact on the values involved.
The sqlite `lock_info` table (all rows have `key = 1`) is embedded as a list
of `(lock_id, lock_date)` rows; the primary key on `key` means an `INSERT`
succeeds exactly when no row is present.
-/

namespace Pyutools

/-- One row of the `lock_info` table: `(lock_id, lock_date)` (the fixed
`key = 1` column is implicit). -/
abbrev Row : Type := Nat × ℚ

/-- The rows of the `lock_info` table visible to a `SELECT ... WHERE key = 1`. -/
abbrev Store : Type := List Row

/-- `lock.py` line 54: maximum number of locks used simultaneously in the
same directory. -/
def MAX_N_LOCKS : Nat := 1000000

/-- The constructor arguments and derived configuration of one `Lock`
instance (`Lock.__init__`, lines 97-108): `lock_id` is the id drawn by
`_init_db`; `timeout`, `wait`, `err_if_timeout`, `refresh` are the fields of
the same name. -/
structure LockCfg where
  lock_id : Nat
  timeout : ℚ
  wait : ℚ
  err_if_timeout : Bool
  refresh : ℚ
deriving DecidableEq

/-- `Lock.__init__` lines 102-108: the value stored in `self.refresh` from
the `timeout` argument and the optional `refresh` argument (`none` embeds
Python's `None` default). -/
def initRefresh (timeout : ℚ) (refresh : Option ℚ) : ℚ :=
  match refresh with
  | none => if timeout < 0 then -1 else timeout / 2
  | some r => r

/-- `Lock.acquire` line 216: the occupying holder with recorded time
`lock_date` is stale at instant `now` when
`self.timeout >= 0 and (age > self.timeout or -age > 3600)`,
with `age = now - lock_date` (line 209). -/
def isStale (timeout now lock_date : ℚ) : Bool :=
  decide (0 ≤ timeout) &&
    (decide (now - lock_date > timeout) || decide (-(now - lock_date) > 3600))

/-- What `Lock.acquire` lines 202-208 make of the rows returned by the
`SELECT`: no row means unlocked; otherwise
`assert len(result) in (1, 2)` and the holder is `result[0]`. -/
inductive ReadResult where
  | empty : ReadResult
  | held (lock_id : Nat) (lock_date : ℚ) : ReadResult
  | readError : ReadResult
deriving DecidableEq

/-- `Lock.acquire` lines 202-208: classify the read rows; `readError` is the
failing `assert len(result) in (1, 2)`. -/
def classifyRead : Store → ReadResult
  | [] => ReadResult.empty
  | (lid, d) :: rest =>
      if rest.length + 1 = 1 ∨ rest.length + 1 = 2 then ReadResult.held lid d
      else ReadResult.readError

/-- Outcome of one iteration of the `while True` loop of `Lock.acquire`
(lines 197-245), carrying the `lock_info` rows as the iteration leaves them.
`acquired` also records whether line 247's `if self.refresh >= 0` registers
the lock with the refresh scheduler. -/
inductive IterOutcome where
  | acquired (st : Store) (registered : Bool) : IterOutcome
  | raised (age : ℚ) (st : Store) : IterOutcome
  | retry (st : Store) : IterOutcome
  | readFailure (st : Store) : IterOutcome
deriving DecidableEq

/-- One iteration of the `while True` loop of `Lock.acquire` (lines
197-245), without interleaved writers: the `SELECT` sees `rows`; the
`INSERT` of the singleton `key = 1` row succeeds exactly when no row is
present when it runs.
  * no row: fall to the `INSERT` (lines 233-238), which succeeds;
  * a stale holder with `err_if_timeout`: `raise LockError` (lines 217-219),
    rows untouched;
  * a stale holder otherwise: `DELETE ... WHERE key = 1 AND lock_id = lid`
    (lines 225-228), then the `INSERT`;
  * a live holder: `time.sleep(self.wait); continue` (lines 230-232). -/
def acquireIter (cfg : LockCfg) (rows : Store) (now : ℚ) : IterOutcome :=
  match classifyRead rows with
  | ReadResult.empty =>
      IterOutcome.acquired [(cfg.lock_id, now)] (decide (0 ≤ cfg.refresh))
  | ReadResult.held lid d =>
      if isStale cfg.timeout now d then
        if cfg.err_if_timeout then IterOutcome.raised (now - d) rows
        else
          let rows' := rows.filter fun r => r.1 != lid
          if rows'.isEmpty then
            IterOutcome.acquired [(cfg.lock_id, now)] (decide (0 ≤ cfg.refresh))
          else IterOutcome.retry rows'
      else IterOutcome.retry rows
  | ReadResult.readError => IterOutcome.readFailure rows

/-- The per-instance mutable state `Lock.acquire`/`Lock.release` touch:
`self.locked` (line 116) and whether `self.thread_lock` (line 110), the
in-process guard, is currently held. -/
structure Inst where
  locked : Bool
  guardHeld : Bool
deriving DecidableEq

/-- Result of one call to `Lock.acquire` (lines 190-250) on instance state
`inst` with the store at `rows`, observed at instant `now` and modelled up
to the first loop exit or first sleep:
  * `blocked`: line 195's `self.thread_lock.acquire()` blocks because the
    guard is already held;
  * `assertFailed`: line 196's `assert not self.locked` fails (guard now
    held, nothing released);
  * `acquired`: the loop exited at line 245; `locked = True` (line 250) and
    the guard stays held;
  * `timeoutError`: the `raise LockError` of lines 217-219 propagates; note
    no `finally` releases the guard;
  * `readError`: the `assert` of line 207 fails inside the loop, same;
  * `looping`: the iteration slept and the call is still inside the loop. -/
inductive AcqOutcome where
  | blocked : AcqOutcome
  | assertFailed (inst : Inst) (st : Store) : AcqOutcome
  | acquired (inst : Inst) (st : Store) (registered : Bool) : AcqOutcome
  | timeoutError (age : ℚ) (inst : Inst) (st : Store) : AcqOutcome
  | readError (inst : Inst) (st : Store) : AcqOutcome
  | looping (inst : Inst) (st : Store) : AcqOutcome
deriving DecidableEq

/-- `Lock.acquire` (lines 190-250) as it acts on `Inst` and the store; see
`AcqOutcome`. -/
def acquireCall (cfg : LockCfg) (inst : Inst) (rows : Store) (now : ℚ) :
    AcqOutcome :=
  if inst.guardHeld then AcqOutcome.blocked
  else if inst.locked then AcqOutcome.assertFailed ⟨inst.locked, true⟩ rows
  else
    match acquireIter cfg rows now with
    | IterOutcome.acquired st reg => AcqOutcome.acquired ⟨true, true⟩ st reg
    | IterOutcome.raised age st => AcqOutcome.timeoutError age ⟨false, true⟩ st
    | IterOutcome.retry st => AcqOutcome.looping ⟨false, true⟩ st
    | IterOutcome.readFailure st => AcqOutcome.readError ⟨false, true⟩ st

/-- Result of `Lock.release` (lines 252-276): the instance state and store
it leaves, and the message of the `LockError` it raises, if any. -/
structure ReleaseResult where
  inst : Inst
  store : Store
  err : Option String
deriving DecidableEq

/-- `Lock.release` (lines 252-276): raises `LockError` when not locked
(lines 259-260); otherwise deletes the row
`WHERE key = 1 AND lock_id = self.lock_id` (lines 265-268). The `finally`
(lines 270-276) always sets `locked = False` and releases the guard
(swallowing `threading.ThreadError` when it was not held). -/
def releaseFn (cfg : LockCfg) (inst : Inst) (rows : Store) : ReleaseResult :=
  if inst.locked then
    { inst := ⟨false, false⟩
      store := rows.filter fun r => r.1 != cfg.lock_id
      err := none }
  else
    { inst := ⟨false, false⟩
      store := rows
      err := some "Lock is already unlocked" }

/-- The sqlite connection resources of one instance: `self.cursor` and
`self.db_conn` (`None` embedded as `false`). -/
structure Conn where
  cursorOpen : Bool
  connOpen : Bool
deriving DecidableEq

/-- Full per-instance state for `Lock.shutdown`. -/
structure LockFull where
  inst : Inst
  conn : Conn
deriving DecidableEq

/-- Result of `Lock.shutdown` (lines 278-299): the state and store it
leaves, any error it lets escape, and whether this call closed the
database connection. -/
structure ShutdownResult where
  state : LockFull
  store : Store
  err : Option String
  closedConn : Bool
deriving DecidableEq

/-- `Lock.shutdown` (lines 278-299): calls `release()` swallowing its
`LockError` (lines 284-288; every error `releaseFn` reports is that
`LockError`), then under the guard closes the cursor and the connection,
each only if not already `None`, setting them to `None` (lines 290-299). -/
def shutdownFn (cfg : LockCfg) (s : LockFull) (rows : Store) : ShutdownResult :=
  let r := releaseFn cfg s.inst rows
  let swallowed : Option String :=
    match r.err with
    | some _ => none
    | none => none
  { state := { inst := r.inst, conn := ⟨false, false⟩ }
    store := r.store
    err := swallowed
    closedConn := s.conn.connOpen }

/-! ### Identity allocator (`Lock._init_db`, lines 150-188) -/

/-- The `counter` table together with its `sqlite_sequence` entry: `rows` is
the number of rows in `counter`; `seq` the stored AUTOINCREMENT high-water
mark (`none` when no `sqlite_sequence` row for `counter` exists). With the
table empty at insert time — as in every use below — the next AUTOINCREMENT
rowid is the stored mark plus one, or 1 when no mark exists. -/
structure CounterDB where
  rows : Nat
  seq : Option Nat
deriving DecidableEq

/-- `INSERT INTO counter (dummy) VALUES (0)` (line 171) on an AUTOINCREMENT
table: returns `lastrowid` and the updated table. -/
def insertCounter (db : CounterDB) : Nat × CounterDB :=
  let newId := db.seq.getD 0 + 1
  (newId, ⟨db.rows + 1, some newId⟩)

/-- `get_lock_id` (lines 169-179): insert to draw `lastrowid`, then
`DELETE FROM counter` to clean up leftovers. -/
def getLockId (db : CounterDB) : Nat × CounterDB :=
  let (i, db1) := insertCounter db
  (i, ⟨0, db1.seq⟩)

/-- The allocation part of `Lock._init_db` (lines 180-188): draw an id; if
`self.lock_id % MAX_N_LOCKS == 0`, delete the `sqlite_sequence` row for
`counter` (resetting the sequence) and draw again. -/
def initDbAlloc (db : CounterDB) : Nat × CounterDB :=
  let (i, db1) := getLockId db
  if i % MAX_N_LOCKS = 0 then getLockId ⟨db1.rows, none⟩
  else (i, db1)

/-- `initDbAlloc` iterated: the counter table after `k` successive `Lock`
constructions against the same store. -/
def allocMany : Nat → CounterDB → CounterDB
  | 0, db => db
  | k + 1, db => allocMany k (initDbAlloc db).2

/-! ### Directory creation (`Lock._create_directory`, lines 127-148) -/

/-- What the filesystem holds at `self.dirname`. -/
inductive PathState where
  | absent : PathState
  | dir : PathState
  | file : PathState
deriving DecidableEq

/-- `os.path.exists(self.dirname)`. -/
def pathExists : PathState → Bool
  | PathState.absent => false
  | _ => true

/-- `os.path.isdir(self.dirname)`. -/
def pathIsDir : PathState → Bool
  | PathState.dir => true
  | _ => false

/-- One iteration's environment in the `while True` loop of
`_create_directory`: what `os.path.exists` returns now, whether
`os.makedirs` succeeds, and `time.time() - start` at the failure check. -/
structure CreateObs where
  existsNow : Bool
  mkdirOk : Bool
  elapsed : ℚ
deriving DecidableEq

/-- Result of `_create_directory`. -/
inductive CreateResult where
  | ok : CreateResult
  | valueError : CreateResult
  | mkdirError : CreateResult
  | looping : CreateResult
deriving DecidableEq

/-- The `while True` loop of `_create_directory` (lines 134-148), driven by
the per-iteration observations: break when the directory exists or
`makedirs` succeeds; re-raise the `makedirs` failure when more than 10
seconds have passed; otherwise loop. `looping` marks an execution still in
the loop when the observations run out. -/
def createDirLoop : List CreateObs → CreateResult
  | [] => CreateResult.looping
  | o :: rest =>
      if o.existsNow then CreateResult.ok
      else if o.mkdirOk then CreateResult.ok
      else if 10 < o.elapsed then CreateResult.mkdirError
      else createDirLoop rest

/-- `_create_directory` (lines 127-148): raise `ValueError` when the path
exists and is not a directory (lines 131-132), else run the retry loop.
The second component records whether the loop was entered. -/
def createDirectory (ps : PathState) (obs : List CreateObs) :
    CreateResult × Bool :=
  if pathExists ps && !pathIsDir ps then (CreateResult.valueError, false)
  else (createDirLoop obs, true)

/-- `Lock.__init__` lines 117-119: `_create_directory` then `_init_db`. The
last component records whether `_init_db` ran, i.e. whether the store file
was opened/created at all. -/
def lockInitStore (ps : PathState) (obs : List CreateObs) :
    CreateResult × Bool × Bool :=
  let (r, entered) := createDirectory ps obs
  match r with
  | CreateResult.ok => (r, entered, true)
  | _ => (r, entered, false)

/-! ### Cross-instance transition system

The visible effects on the shared `lock_info` row and on each instance's
`locked` flag, for `n` `Lock` instances bound to the same directory. The
store is the singleton `key = 1` row (`none` = absent); the sqlite primary
key makes the `INSERT` of `acquire` succeed only when the row is absent. -/

/-- Shared state: the singleton `lock_info` row and each instance's
`self.locked`. -/
structure LockState (n : Nat) where
  store : Option Row
  locked : Fin n → Bool

/-- All instances constructed, none locked, store row absent. -/
def initState (n : Nat) : LockState n :=
  ⟨none, fun _ => false⟩

/-- Labels for the observable transitions. -/
inductive Action (n : Nat) where
  | insert (i : Fin n) (now : ℚ) : Action n
  | takeover (i : Fin n) (now : ℚ) : Action n
  | release (i : Fin n) : Action n
  | refresh (i : Fin n) (now : ℚ) : Action n
deriving DecidableEq

/-- Is the action a stale-holder takeover (the `DELETE` of
`Lock.acquire` lines 225-228)? -/
def Action.isTakeover {n : Nat} : Action n → Bool
  | Action.takeover _ _ => true
  | _ => false

/-- One observable transition of instance `i` (configuration `cfg i`):
  * `insert`: the successful `INSERT` of `acquire` (lines 234-238, key
    absent) followed by `self.locked = True` (line 250); requires the
    entry assertion `assert not self.locked` (line 196);
  * `takeover`: the stale-holder `DELETE ... WHERE key = 1 AND lock_id =
    lid` of `acquire` (lines 216-228), enabled only when the observed
    holder is stale and `err_if_timeout` is unset;
  * `release`: `Lock.release` (lines 252-276): delete the row if it still
    carries this instance's id, clear `locked`;
  * `refresh`: the scheduler's `UPDATE lock_info SET lock_date = now WHERE
    key = 1 AND lock_id = ...` (lines 454-459) for a held lock whose row is
    still its own. -/
inductive Step {n : Nat} (cfg : Fin n → LockCfg) :
    LockState n → Action n → LockState n → Prop where
  | insert (s : LockState n) (i : Fin n) (now : ℚ)
      (hstore : s.store = none) (hl : s.locked i = false) :
      Step cfg s (Action.insert i now)
        ⟨some ((cfg i).lock_id, now),
         fun j => if j = i then true else s.locked j⟩
  | takeover (s : LockState n) (i : Fin n) (now : ℚ) (lid : Nat) (d : ℚ)
      (hstore : s.store = some (lid, d))
      (hstale : isStale (cfg i).timeout now d = true)
      (herr : (cfg i).err_if_timeout = false)
      (hl : s.locked i = false) :
      Step cfg s (Action.takeover i now) ⟨none, s.locked⟩
  | release (s : LockState n) (i : Fin n) (hl : s.locked i = true) :
      Step cfg s (Action.release i)
        ⟨match s.store with
         | some (l, d) => if l = (cfg i).lock_id then none else some (l, d)
         | none => none,
         fun j => if j = i then false else s.locked j⟩
  | refresh (s : LockState n) (i : Fin n) (now : ℚ) (d : ℚ)
      (hl : s.locked i = true)
      (hstore : s.store = some ((cfg i).lock_id, d)) :
      Step cfg s (Action.refresh i now)
        ⟨some ((cfg i).lock_id, now), s.locked⟩

/-- A finite run through the labelled transitions. -/
inductive Steps {n : Nat} (cfg : Fin n → LockCfg) :
    LockState n → List (Action n) → LockState n → Prop where
  | nil (s : LockState n) : Steps cfg s [] s
  | cons {s s' s'' : LockState n} {a : Action n} {tr : List (Action n)}
      (h : Step cfg s a s') (h' : Steps cfg s' tr s'') :
      Steps cfg s (a :: tr) s''

/-- A state reachable from the all-unlocked initial state. -/
def Reachable {n : Nat} (cfg : Fin n → LockCfg) (s : LockState n) : Prop :=
  ∃ tr, Steps cfg (initState n) tr s

/-- At most one of the instances has `self.locked = True`. -/
def AtMostOneLocked {n : Nat} (s : LockState n) : Prop :=
  ∀ i j : Fin n, s.locked i = true → s.locked j = true → i = j

/-- Inductive invariant for runs without stale-holder takeover: at most one
instance is locked, and a locked instance's id is the one in the store
row. -/
def MutexInv {n : Nat} (cfg : Fin n → LockCfg) (s : LockState n) : Prop :=
  AtMostOneLocked s ∧
    ∀ i : Fin n, s.locked i = true → ∃ d, s.store = some ((cfg i).lock_id, d)

/-! ### Concrete configurations and states used in closed statements -/

/-- Two instances on one store: ids 1 and 2, `timeout = 10`, `wait = 1`,
`err_if_timeout = False`, `refresh = -1`. -/
def c1Cfg : Fin 2 → LockCfg := fun i => ⟨i.val + 1, 10, 1, false, -1⟩

/-- After instance 0's successful `INSERT` at instant 0. -/
def c1s1 : LockState 2 :=
  ⟨some ((c1Cfg 0).lock_id, 0),
   fun j => if j = 0 then true else (initState 2).locked j⟩

/-- After instance 1 deletes instance 0's stale row at instant 20. -/
def c1s2 : LockState 2 := ⟨none, c1s1.locked⟩

/-- After instance 1's successful `INSERT` at instant 20: both instances
have `self.locked = True`. -/
def c1s3 : LockState 2 :=
  ⟨some ((c1Cfg 1).lock_id, 20), fun j => if j = 1 then true else c1s2.locked j⟩

/-- A configuration with `err_if_timeout = True`, `timeout = 10`. -/
def c4Cfg : LockCfg := ⟨1, 10, 1, true, 5⟩

/-! ## Helper lemmas -/

theorem isStale_iff (t now d : ℚ) :
    isStale t now d = true ↔ (0 ≤ t ∧ (now - d > t ∨ d - now > 3600)) := by
  simp [isStale, neg_sub]

theorem isStale_of_neg {t : ℚ} (now d : ℚ) (h : t < 0) :
    isStale t now d = false := by
  simp [isStale, not_le.mpr h]

theorem classifyRead_cons {lid : Nat} {d : ℚ} {rest : Store}
    (h : rest.length ≤ 1) :
    classifyRead ((lid, d) :: rest) = ReadResult.held lid d := by
  have h2 : rest.length + 1 = 1 ∨ rest.length + 1 = 2 := by omega
  simp only [classifyRead]
  rw [if_pos h2]

theorem acquireIter_registered {c : LockCfg} {rows : Store} {now : ℚ}
    {st : Store} {reg : Bool}
    (h : acquireIter c rows now = IterOutcome.acquired st reg) :
    reg = decide (0 ≤ c.refresh) := by
  unfold acquireIter at h
  cases hr : classifyRead rows with
  | empty => rw [hr] at h; exact (IterOutcome.acquired.injEq ..).mp h |>.2.symm
  | held lid d =>
      rw [hr] at h
      by_cases hs : isStale c.timeout now d
      · by_cases he : c.err_if_timeout
        · simp [hs, he] at h
        · simp only [hs, he, if_true, if_false, Bool.false_eq_true] at h
          by_cases hemp : (rows.filter fun r => r.1 != lid).isEmpty
          · simp only [hemp, if_true] at h
            exact (IterOutcome.acquired.injEq ..).mp h |>.2.symm
          · simp [hemp] at h
      · simp [hs] at h
  | readError => rw [hr] at h; simp at h

theorem acquireIter_held_not_stale {c : LockCfg} {rows : Store} {lid : Nat}
    {d now : ℚ} (hread : classifyRead rows = ReadResult.held lid d)
    (hs : isStale c.timeout now d = false) :
    acquireIter c rows now = IterOutcome.retry rows := by
  simp [acquireIter, hread, hs]

/-! ## Claim theorems -/

/-- C2. During `acquire()`, an occupying holder with recorded time
`lock_date` is classified as stale exactly when `timeout >= 0` and
(`now - lock_date > timeout` or `lock_date` is more than 3600 seconds in
the future); and for every configuration with `timeout < 0` the occupant is
never stale and the loop iteration just sleeps and retries, leaving the
store unchanged. -/
theorem stale_exactly_when_aged_or_future :
    (∀ t now d : ℚ,
      isStale t now d = true ↔ (0 ≤ t ∧ (now - d > t ∨ d - now > 3600)))
    ∧ (∀ (c : LockCfg) (rows : Store) (lid : Nat) (d now : ℚ),
        c.timeout < 0 → classifyRead rows = ReadResult.held lid d →
        isStale c.timeout now d = false ∧
          acquireIter c rows now = IterOutcome.retry rows) := by
  refine ⟨isStale_iff, fun c rows lid d now hneg hread => ?_⟩
  have hs := isStale_of_neg (t := c.timeout) now d hneg
  exact ⟨hs, acquireIter_held_not_stale hread hs⟩

/-- C3. If `err_if_timeout` is set and `acquire()` observes a stale holder,
the iteration raises the `LockError` reporting the observed age
`now - lock_date`, and the store rows are left exactly as read — the stale
holder's row is still present. -/
theorem timeout_error_leaves_row (c : LockCfg) (rows : Store) (lid : Nat)
    (d now : ℚ) (herr : c.err_if_timeout = true)
    (hread : classifyRead rows = ReadResult.held lid d)
    (hstale : isStale c.timeout now d = true) :
    acquireIter c rows now = IterOutcome.raised (now - d) rows ∧
      (lid, d) ∈ rows := by
  constructor
  · simp [acquireIter, hread, hstale, herr]
  · cases rows with
    | nil => simp [classifyRead] at hread
    | cons r rest =>
        obtain ⟨l, d'⟩ := r
        simp only [classifyRead] at hread
        by_cases h2 : rest.length + 1 = 1 ∨ rest.length + 1 = 2
        · rw [if_pos h2] at hread
          obtain ⟨h3, h4⟩ := (ReadResult.held.injEq ..).mp hread
          subst h3; subst h4
          exact List.mem_cons_self _ _
        · rw [if_neg h2] at hread
          simp at hread

/-- Witness for C3: a holder with id 7 recorded at instant 0, observed at
instant 100 under `timeout = 10` and `err_if_timeout = True`. -/
theorem timeout_error_leaves_row_witness :
    acquireIter c4Cfg [(7, 0)] 100 = IterOutcome.raised (100 - 0) [(7, 0)] ∧
      ((7 : Nat), (0 : ℚ)) ∈ [((7 : Nat), (0 : ℚ))] :=
  timeout_error_leaves_row c4Cfg [(7, 0)] 7 0 100 rfl
    (by simp [classifyRead]) (by norm_num [isStale, c4Cfg])

/-- C7. A read observing 1 or 2 rows for the singleton key is treated as a
single logical holder — the holder named by the first row — and the
`assert len(result) in (1, 2)` branch cannot fail whenever at most 2 rows
are observed. -/
theorem duplicate_rows_one_holder :
    (∀ (lid : Nat) (d : ℚ) (rest : Store), rest.length ≤ 1 →
        classifyRead ((lid, d) :: rest) = ReadResult.held lid d)
    ∧ (∀ rows : Store, rows.length ≤ 2 →
        classifyRead rows ≠ ReadResult.readError) := by
  constructor
  · exact fun lid d rest h => classifyRead_cons h
  · intro rows hlen
    cases rows with
    | nil => simp [classifyRead]
    | cons r rest =>
        obtain ⟨l, d'⟩ := r
        rw [classifyRead_cons (by simpa using hlen)]
        simp

/-- C9. With `timeout = -1` and no explicit `refresh` argument the
constructor stores `refresh = -1`, and a successful `acquire()` on such an
instance never registers with the refresh scheduler (line 247's
`if self.refresh >= 0` is false). -/
theorem no_refresh_when_infinite_timeout :
    initRefresh (-1) none = -1
    ∧ (∀ (c : LockCfg) (rows st : Store) (now : ℚ) (reg : Bool),
        c.refresh = initRefresh (-1) none →
        acquireIter c rows now = IterOutcome.acquired st reg →
        reg = false) := by
  have h1 : initRefresh (-1) none = -1 := by norm_num [initRefresh]
  refine ⟨h1, fun c rows st now reg hc hacq => ?_⟩
  rw [acquireIter_registered hacq, hc, h1]
  norm_num

/-- C5. `release()` raises the not-locked `LockError` exactly when the
instance is not locked at the call; after one successful acquire (`locked =
true`), the first of two consecutive releases succeeds and the second
raises the not-locked error. -/
theorem release_errors_iff_not_locked :
    ∀ (c : LockCfg) (inst : Inst) (rows : Store),
      ((releaseFn c inst rows).err = none ↔ inst.locked = true)
      ∧ (inst.locked = true →
          (releaseFn c inst rows).err = none ∧
          (releaseFn c ((releaseFn c inst rows).inst)
              ((releaseFn c inst rows).store)).err =
            some "Lock is already unlocked") := by
  intro c inst rows
  by_cases hl : inst.locked
  · simp [releaseFn, hl]
  · simp [releaseFn, hl]

/-- C6. `shutdown()` never raises: on a locked instance, an unlocked one,
or repeatedly, every call completes with no escaping error (the inner
`release()`'s `LockError` is swallowed), it leaves the connection closed,
and a call on a state whose connection is already closed closes nothing —
so the connection is closed at most once. -/
theorem shutdown_never_raises :
    ∀ (c : LockCfg) (s : LockFull) (rows : Store),
      (shutdownFn c s rows).err = none
      ∧ (shutdownFn c s rows).state.conn.connOpen = false
      ∧ ((shutdownFn c s rows).closedConn = true ↔ s.conn.connOpen = true)
      ∧ (shutdownFn c (shutdownFn c s rows).state
          (shutdownFn c s rows).store).closedConn = false := by
  intro c s rows
  by_cases hl : s.inst.locked <;>
    simp [shutdownFn, releaseFn, hl]

/-- C10. When the lock's path exists and is not a directory, the
constructor raises `ValueError` at once: the creation retry loop is never
entered (whatever `os.makedirs`/clock behaviour the environment would have
shown) and `_init_db` never runs, so no store file is created or touched. -/
theorem not_a_directory_fails_fast :
    ∀ obs : List CreateObs,
      createDirectory PathState.file obs = (CreateResult.valueError, false)
      ∧ lockInitStore PathState.file obs =
          (CreateResult.valueError, false, false) := by
  intro obs
  constructor
  · simp [createDirectory, pathExists, pathIsDir]
  · simp [lockInitStore, createDirectory, pathExists, pathIsDir]

/-- The allocation of `_init_db` always leaves the `counter` table empty. -/
theorem initDbAlloc_rows (db : CounterDB) : ((initDbAlloc db).2).rows = 0 := by
  unfold initDbAlloc getLockId insertCounter
  by_cases h : (db.seq.getD 0 + 1) % MAX_N_LOCKS = 0 <;> simp [h]

/-- `allocMany` never accumulates rows: after any positive number of
allocations the `counter` table is empty. -/
theorem allocMany_rows (k : Nat) :
    ∀ db : CounterDB, (allocMany (k + 1) db).rows = 0 := by
  induction k with
  | zero => intro db; simpa [allocMany] using initDbAlloc_rows db
  | succ m ih => intro db; exact ih (initDbAlloc db).2

/-- C8. Every id allocation leaves the `counter` table empty (the
insert-then-clear); when the drawn id is `≡ 0 (mod MAX_N_LOCKS)` the
`sqlite_sequence` entry is deleted and a fresh id — 1 — is drawn from the
reset sequence; and `MAX_N_LOCKS + 1` successive allocations from a fresh
store leave the table empty throughout (0 rows after each allocation). -/
theorem id_allocation_bounded :
    (∀ db : CounterDB, ((initDbAlloc db).2).rows = 0)
    ∧ (∀ db : CounterDB, (getLockId db).1 % MAX_N_LOCKS = 0 →
        initDbAlloc db = (1, ⟨0, some 1⟩))
    ∧ (∀ (k : Nat) (db : CounterDB), (allocMany (k + 1) db).rows = 0)
    ∧ (allocMany (MAX_N_LOCKS + 1) ⟨0, none⟩).rows = 0 := by
  refine ⟨initDbAlloc_rows, ?_, fun k db => allocMany_rows k db,
    allocMany_rows MAX_N_LOCKS ⟨0, none⟩⟩
  intro db h
  unfold initDbAlloc
  unfold getLockId insertCounter at h ⊢
  simp only at h ⊢
  rw [if_pos h]
  rfl

/-- C4 counterexample: under `err_if_timeout = True`, `acquire()` raises
the timeout `LockError` with the in-process guard still held
(`guardHeld = true`), and a subsequent `acquire()` on the same instance
blocks — the guard was not released before the error propagated. -/
theorem guard_still_held_after_error :
    acquireCall c4Cfg ⟨false, false⟩ [(7, 0)] 100 =
        AcqOutcome.timeoutError (100 - 0) ⟨false, true⟩ [(7, 0)]
      ∧ acquireCall c4Cfg ⟨false, true⟩ [(7, 0)] 100 = AcqOutcome.blocked := by
  constructor
  · have hst : isStale (10 : ℚ) 100 0 = true := by norm_num [isStale]
    simp [acquireCall, acquireIter, classifyRead, hst, c4Cfg]
  · simp [acquireCall]

/-- C4 (amended). When `acquire()` exits with the timeout error, the guard
is still held and the instance not locked: a later `acquire()` on the same
instance is blocked until `release()` (or `shutdown()`, which calls it) is
run, whose `finally` releases the guard. -/
theorem guard_released_only_by_release (c : LockCfg) (inst : Inst)
    (rows st : Store) (now age : ℚ) (inst' : Inst)
    (h : acquireCall c inst rows now = AcqOutcome.timeoutError age inst' st) :
    inst'.guardHeld = true ∧ inst'.locked = false
      ∧ acquireCall c inst' st now = AcqOutcome.blocked
      ∧ (releaseFn c inst' st).inst.guardHeld = false := by
  have hinst : inst' = ⟨false, true⟩ := by
    unfold acquireCall at h
    by_cases hg : inst.guardHeld
    · simp [hg] at h
    · by_cases hl : inst.locked
      · simp [hg, hl] at h
      · simp only [hg, hl, Bool.false_eq_true, if_false] at h
        cases hiter : acquireIter c rows now <;> rw [hiter] at h <;> simp at h
        exact h.2.1.symm
  subst hinst
  refine ⟨rfl, rfl, by simp [acquireCall], by simp [releaseFn]⟩

/-- Witness for C4 (amended), at the concrete run of the counterexample. -/
theorem guard_released_only_by_release_witness :
    (true : Bool) = true ∧ (false : Bool) = false
      ∧ acquireCall c4Cfg ⟨false, true⟩ [(7, 0)] 100 = AcqOutcome.blocked
      ∧ (releaseFn c4Cfg ⟨false, true⟩ [(7, 0)]).inst.guardHeld = false :=
  guard_released_only_by_release c4Cfg ⟨false, false⟩ [(7, 0)] [(7, 0)]
    100 (100 - 0) ⟨false, true⟩
    (by
      have hst : isStale (10 : ℚ) 100 0 = true := by
        norm_num [isStale]
      simp [acquireCall, acquireIter, classifyRead, hst, c4Cfg])

/-- One non-takeover transition preserves `MutexInv`. -/
theorem step_preserves_mutexInv {n : Nat} {cfg : Fin n → LockCfg}
    {s s' : LockState n} {a : Action n}
    (hstep : Step cfg s a s') (hna : a.isTakeover = false)
    (hinv : MutexInv cfg s) : MutexInv cfg s' := by
  obtain ⟨h1, h2⟩ := hinv
  cases hstep with
  | insert i now hstore hl =>
      have hnone : ∀ j : Fin n, s.locked j = true → False := by
        intro j hj
        obtain ⟨d, hd⟩ := h2 j hj
        rw [hstore] at hd
        exact Option.noConfusion hd
      constructor
      · intro j k hj hk
        simp only at hj hk
        by_cases hji : j = i
        · by_cases hki : k = i
          · rw [hji, hki]
          · rw [if_neg hki] at hk
            exact absurd hk (fun hh => hnone k hh)
        · rw [if_neg hji] at hj
          exact absurd hj (fun hh => hnone j hh)
      · intro j hj
        simp only at hj ⊢
        by_cases hji : j = i
        · exact ⟨now, by rw [hji]⟩
        · rw [if_neg hji] at hj
          exact absurd hj (fun hh => hnone j hh)
  | takeover i now lid d hstore hstale herr hl =>
      simp [Action.isTakeover] at hna
  | release i hl =>
      constructor
      · intro j k hj hk
        simp only at hj hk
        by_cases hji : j = i
        · rw [if_pos hji] at hj
          exact absurd hj (by simp)
        · by_cases hki : k = i
          · rw [if_pos hki] at hk
            exact absurd hk (by simp)
          · rw [if_neg hji] at hj
            rw [if_neg hki] at hk
            exact h1 j k hj hk
      · intro j hj
        simp only at hj
        by_cases hji : j = i
        · rw [if_pos hji] at hj
          exact absurd hj (by simp)
        · rw [if_neg hji] at hj
          exact absurd (h1 j i hj hl) hji
  | refresh i now d hl hstore =>
      refine ⟨h1, fun j hj => ?_⟩
      simp only at hj ⊢
      have hji : j = i := h1 j i hj hl
      exact ⟨now, by rw [hji]⟩

/-- A run with no takeover action preserves `MutexInv`. -/
theorem steps_preserve_mutexInv {n : Nat} {cfg : Fin n → LockCfg}
    {s s' : LockState n} {tr : List (Action n)}
    (h : Steps cfg s tr s') (hna : ∀ a ∈ tr, a.isTakeover = false)
    (hinv : MutexInv cfg s) : MutexInv cfg s' := by
  induction h with
  | nil s => exact hinv
  | cons hstep hsteps ih =>
      exact ih (fun a ha => hna a (List.mem_cons_of_mem _ ha))
        (step_preserves_mutexInv hstep (hna _ (List.mem_cons_self _ _)) hinv)

/-- C1 (amended). For any number of `Lock` instances bound to the same
store, along any run from the all-unlocked initial state in which no
stale-holder takeover occurs, at most one instance is in the Locked state
at any observed instant. (The unamended claim fails: a takeover leaves the
stale holder's `locked` flag true while the thief also becomes locked — see
the counterexample.) -/
theorem mutex_without_takeover {n : Nat} (cfg : Fin n → LockCfg)
    (tr : List (Action n)) (s : LockState n)
    (hsteps : Steps cfg (initState n) tr s)
    (hna : ∀ a ∈ tr, a.isTakeover = false) :
    AtMostOneLocked s :=
  (steps_preserve_mutexInv hsteps hna
    ⟨fun i j hi => by simp [initState] at hi,
     fun i hi => by simp [initState] at hi⟩).1

/-- Witness for C1 (amended): the takeover-free run in which instance 0
inserts at instant 0 ends in a state with at most one instance locked. -/
theorem mutex_without_takeover_witness : AtMostOneLocked c1s1 :=
  mutex_without_takeover c1Cfg [Action.insert 0 0] c1s1
    (Steps.cons (Step.insert (initState 2) 0 0 rfl rfl) (Steps.nil c1s1))
    (by
      intro a ha
      rw [List.mem_singleton] at ha
      subst ha
      rfl)

/-- C1 counterexample. With two instances (`timeout = 10`,
`err_if_timeout = False`), the run «0 inserts at instant 0; 1 deletes 0's
stale row at instant 20; 1 inserts at instant 20» is a legal run of the
code, and it ends in a state where both instances have `self.locked = True`
— the claim's "at most one Locked at any observed instant" is false. -/
theorem both_locked_reachable :
    Steps c1Cfg (initState 2)
        [Action.insert 0 0, Action.takeover 1 20, Action.insert 1 20] c1s3
      ∧ c1s3.locked 0 = true ∧ c1s3.locked 1 = true
      ∧ ¬ AtMostOneLocked c1s3 := by
  refine ⟨?_, rfl, rfl, ?_⟩
  · exact Steps.cons (Step.insert (initState 2) 0 0 rfl rfl)
      (Steps.cons
        (Step.takeover c1s1 1 20 1 0 rfl (by norm_num [isStale, c1Cfg]) rfl rfl)
        (Steps.cons (Step.insert c1s2 1 20 rfl rfl) (Steps.nil c1s3)))
  · intro h
    have h01 := h 0 1 rfl rfl
    exact absurd h01 (by decide)

end Pyutools
